import Mathlib

/-!
# Verification of the Codecomposio action-registration framework

Shallow embedding of the repository's schema synthesizer
(`auto_gen/composio_autogen/autogen_toolspec.py`), signature compiler and
registry (`python/composio/tools/base/runtime.py`), and two local actions
(`get_repomap.py`, `cmds.py`), together with proofs and refutations of the
specification's claims about them.

Conventions used throughout the embedding:
* Python dictionaries read from JSON are modelled as ordered association
  lists whose keys are distinct (Python dict keys are unique and preserve
  insertion order).
* A Python `KeyError`, `ValueError`, `TypeError` is modelled as the
  corresponding constructor of `PyError`; fallible Python code is embedded
  as `Except PyError _`.
* Python evaluates the second argument of `dict.get(key, default)` eagerly;
  the embedding preserves this order of effects.
-/

set_option autoImplicit false

namespace Codecomposio

/-- A Python runtime value, as far as the embedded code inspects values. -/
inductive PyVal where
  | pyNone
  | pyStr (s : String)
  | pyFloat (q : Rat)
  | pyInt (n : Int)
  | pyBool (b : Bool)
  | pyList (xs : List PyVal)
  | pyDict (xs : List (String × PyVal))
  | pyModel (name : String) (fields : List (String × PyVal))
deriving Repr

/-- Exceptions thrown by the embedded Python code. -/
inductive PyError where
  | keyError (k : String)
  | valueError (msg : String)
  | typeError (msg : String)
  | attributeError (msg : String)
deriving Repr, DecidableEq

/-- `d[k]` lookup on an association list modelling a Python dict. -/
def dictGet {α : Type} (k : String) : List (String × α) → Option α
  | [] => none
  | (k', v) :: rest => if k' = k then some v else dictGet k rest

/-- `d[k] = v` update on an association list modelling a Python dict:
an existing key keeps its position, a fresh key is appended. -/
def dictSet {α : Type} (k : String) (v : α) : List (String × α) → List (String × α)
  | [] => [(k, v)]
  | (k', v') :: rest => if k' = k then (k, v) :: rest else (k', v') :: dictSet k v rest

/-- `d[k]` on a Python dict: raises `KeyError(k)` when the key is absent. -/
def expectKey {α : Type} (k : String) : Option α → Except PyError α
  | some v => .ok v
  | none => .error (.keyError k)

/-- Python `str.upper()` on ASCII strings, character by character. -/
def pyUpper (s : String) : String := ⟨s.data.map Char.toUpper⟩

/-- Python `str.lower()` on ASCII strings. -/
def pyLower (s : String) : String := ⟨s.data.map Char.toLower⟩

/-- Scanner for `inflection.camelize` after the initial character:
`re.sub(r"(?:^|_)(.)", ...)` consumes an underscore together with the
following character and uppercases that character; a trailing lone
underscore is kept. -/
def camelizeAux : List Char → List Char
  | [] => []
  | '_' :: c :: rest => Char.toUpper c :: camelizeAux rest
  | c :: rest => c :: camelizeAux rest

/-- `inflection.camelize(s)`: uppercase the first character, then drop
each underscore and uppercase the character after it; all other
characters are kept unchanged (nothing is lowercased). -/
def pyCamelize (s : String) : String :=
  match s.data with
  | [] => ""
  | c :: rest => ⟨Char.toUpper c :: camelizeAux rest⟩

/-- First substitution of `inflection.underscore`:
`re.sub(r"([A-Z]+)([A-Z][a-z])", r"\1_\2", word)` — insert `_` between
an uppercase character and an uppercase-lowercase pair that follows it. -/
def underscorePass1 : List Char → List Char
  | c1 :: c2 :: c3 :: rest =>
    if c1.isUpper && c2.isUpper && c3.isLower then
      c1 :: '_' :: underscorePass1 (c2 :: c3 :: rest)
    else
      c1 :: underscorePass1 (c2 :: c3 :: rest)
  | l => l

/-- Second substitution of `inflection.underscore`:
`re.sub(r"([a-z\d])([A-Z])", r"\1_\2", word)` — insert `_` between a
lowercase letter or digit and an uppercase letter. -/
def underscorePass2 : List Char → List Char
  | c1 :: c2 :: rest =>
    if (c1.isLower || c1.isDigit) && c2.isUpper then
      c1 :: '_' :: underscorePass2 (c2 :: rest)
    else
      c1 :: underscorePass2 (c2 :: rest)
  | l => l

/-- `inflection.underscore(s)`: the two substitutions above, `-`
replaced by `_`, then lowercased. -/
def pyUnderscore (s : String) : String :=
  pyLower ⟨(underscorePass2 (underscorePass1 s.data)).map
    (fun c => if c = '-' then '_' else c)⟩

/-! ## Schema synthesizer (`auto_gen/composio_autogen/autogen_toolspec.py`)

A JSON-Schema-like parameter node is a Python dict; the keys the code reads
are `title`, `type`, `properties`, `required`, `default`, `description` and
`desc`.  A missing key is an `Option.none` and raises `KeyError` when
accessed with `d[k]`. -/

inductive ParamSchema where
  | mk
      (title : Option String)
      (ty : Option String)
      (properties : Option (List (String × ParamSchema)))
      (required : Option (List String))
      (default : Option PyVal)
      (description : Option String)
      (desc : Option String)

def ParamSchema.title : ParamSchema → Option String
  | .mk t _ _ _ _ _ _ => t

def ParamSchema.ty : ParamSchema → Option String
  | .mk _ t _ _ _ _ _ => t

def ParamSchema.properties : ParamSchema → Option (List (String × ParamSchema))
  | .mk _ _ p _ _ _ _ => p

def ParamSchema.required : ParamSchema → Option (List String)
  | .mk _ _ _ r _ _ _ => r

def ParamSchema.default : ParamSchema → Option PyVal
  | .mk _ _ _ _ d _ _ => d

def ParamSchema.description : ParamSchema → Option String
  | .mk _ _ _ _ _ d _ => d

def ParamSchema.desc : ParamSchema → Option String
  | .mk _ _ _ _ _ _ d => d

/-- The per-field data pydantic's `Field(...)` records in the synthesized
model: required flag, default (`none` models the required marker `...`),
title and description (the code passes a description only for required
fields). -/
structure FieldInfo where
  required : Bool
  default : Option PyVal
  title : String
  description : Option String
deriving Repr

/-- The Python type placed on a synthesized field: one of the four entries
of `schema_type_python_type_dict`, or a nested model created by the
recursive call. -/
inductive SynthType where
  | pyStrT
  | pyFloatT
  | pyBoolT
  | pyListT
  | modelT (name : String) (fields : List (String × SynthType × FieldInfo))
deriving Repr

/-- `schema_type_python_type_dict` from `autogen_toolspec.py` (note:
`object` is commented out in the source). -/
def schema_type_python_type_dict : String → Option SynthType
  | "string" => some .pyStrT
  | "number" => some .pyFloatT
  | "boolean" => some .pyBoolT
  | "array" => some .pyListT
  | _ => none

/-- `fallback_values` from `autogen_toolspec.py`. -/
def fallback_values : String → Option PyVal
  | "string" => some (.pyStr "")
  | "number" => some (.pyFloat 0)
  | "boolean" => some (.pyBool false)
  | "object" => some (.pyDict [])
  | "array" => some (.pyList [])
  | _ => none

mutual

/-- `pydantic_model_from_param_schema` from `autogen_toolspec.py`.
Reads `param_schema['title']` (KeyError when absent), then
`param_schema.get('required', [])`, then iterates
`param_schema['properties'].items()` (KeyError when absent) and finally
calls `create_model(param_title, **fields)`, modelled as `SynthType.modelT`.
The `fields` dict is built in iteration order; property names originate
from a Python dict and are therefore distinct. -/
def pydantic_model_from_param_schema : ParamSchema → Except PyError SynthType
  | .mk none _ _ _ _ _ _ => .error (.keyError "title")
  | .mk (some _) _ none _ _ _ _ => .error (.keyError "properties")
  | .mk (some title) _ (some props) req _ _ _ => do
      let fields ← synthProps (req.getD []) props
      pure (.modelT (title.replace " " "") fields)

/-- The body of the `for prop_name, prop_info in param_schema['properties'].items()`
loop of `pydantic_model_from_param_schema`, one property at a time.
Order of effects follows the source: `prop_info["type"]`,
`prop_info['title']`, then `prop_info.get('default', fallback_values[prop_type])`
whose second argument is evaluated eagerly (so an unknown `type` raises
`KeyError(prop_type)` here even when a schema default is present), then the
branch on `schema_type_python_type_dict` with the recursive call for
non-primitive types, then the required/optional `Field` construction. -/
def synthProps (requiredProps : List String) :
    List (String × ParamSchema) → Except PyError (List (String × SynthType × FieldInfo))
  | [] => pure []
  | (name, info) :: rest => do
      let prop_type ← expectKey "type" info.ty
      let ptitle ← expectKey "title" info.title
      let prop_title := ptitle.replace " " ""
      let fb ← expectKey prop_type (fallback_values prop_type)
      let prop_default := info.default.getD fb
      let sig ← match schema_type_python_type_dict prop_type with
        | some t => pure t
        | none => pydantic_model_from_param_schema info
      let entry : String × SynthType × FieldInfo :=
        if requiredProps.contains name then
          (name, sig, ⟨true, none, prop_title,
            some (info.description.getD (info.desc.getD prop_title))⟩)
        else
          (name, sig, ⟨false, some prop_default, prop_title, none⟩)
      let rest' ← synthProps requiredProps rest
      pure (entry :: rest')
end

/-- A schema node is a primitive leaf when it carries a `title` and its
`type` is one of the four supported primitive type strings. -/
def isPrimitiveLeaf (p : ParamSchema) : Bool :=
  p.title.isSome &&
    match p.ty with
    | some "string" => true
    | some "number" => true
    | some "boolean" => true
    | some "array" => true
    | _ => false

/-- The default value the specification prescribes for an optional
property: the schema-supplied default when present, otherwise the
type-appropriate fallback (string: empty string, number: 0.0, boolean:
false, array: empty sequence, object: empty record).  Stated from the
spec's words, to be compared with what the source computes. -/
def claimedDefault (p : ParamSchema) : PyVal :=
  p.default.getD
    (match p.ty with
     | some "string" => .pyStr ""
     | some "number" => .pyFloat 0
     | some "boolean" => .pyBool false
     | some "array" => .pyList []
     | some "object" => .pyDict []
     | _ => .pyNone)

/-- The field the synthesizer produces for one primitive property
(proof-side closed form of the loop body of
`pydantic_model_from_param_schema`). -/
def primEntry (reqL : List String) (q : String × ParamSchema) :
    String × SynthType × FieldInfo :=
  let ti := (q.2.title.getD "").replace " " ""
  let sig := (q.2.ty.bind schema_type_python_type_dict).getD .pyStrT
  if reqL.contains q.1 then
    (q.1, sig, ⟨true, none, ti, some (q.2.description.getD (q.2.desc.getD ti))⟩)
  else
    (q.1, sig, ⟨false, some (claimedDefault q.2), ti, none⟩)

theorem synthProps_primitive (reqL : List String) (props : List (String × ParamSchema))
    (h : ∀ p ∈ props, isPrimitiveLeaf p.2 = true) :
    synthProps reqL props = .ok (props.map (primEntry reqL)) := by
  induction props with
  | nil => rfl
  | cons hd tl ih =>
    obtain ⟨n, info⟩ := hd
    have hhd := h (n, info) (List.mem_cons_self _ _)
    have hok := ih (fun p hp => h p (List.mem_cons_of_mem _ hp))
    obtain ⟨ti, ty, pr, rq, df, d1, d2⟩ := info
    simp only [isPrimitiveLeaf, ParamSchema.title, ParamSchema.ty, Bool.and_eq_true,
      Option.isSome_iff_exists] at hhd
    obtain ⟨⟨pt, hpt⟩, hty⟩ := hhd
    subst hpt
    split at hty <;> simp_all <;>
      by_cases hc : reqL.contains n <;>
        simp [synthProps, expectKey, fallback_values, bind, Except.bind, pure, Except.pure,
          schema_type_python_type_dict, ParamSchema.ty, ParamSchema.title, hok, hc,
          ParamSchema.default, ParamSchema.description, ParamSchema.desc,
          primEntry, claimedDefault]

theorem primEntry_fst (r : List String) (q : String × ParamSchema) :
    (primEntry r q).1 = q.1 := by
  unfold primEntry; split <;> rfl

theorem primEntry_required (r : List String) (q : String × ParamSchema) :
    (primEntry r q).2.2.required = r.contains q.1 := by
  unfold primEntry; split <;> simp_all

theorem primEntry_default (r : List String) (q : String × ParamSchema) :
    (primEntry r q).2.2.default
      = if r.contains q.1 then none else some (claimedDefault q.2) := by
  unfold primEntry; split <;> simp_all

/-- C1: for every schema tree whose leaves all have primitive types,
synthesis succeeds and produces a model with exactly one field per
property name (in property order); a field is required iff its name is in
the schema's `required` list (no `required` list makes all fields
optional); an optional field's default is the schema-supplied default when
present, otherwise the type-appropriate fallback of `claimedDefault`. -/
theorem schema_synthesis_primitive_leaves
    (title : String) (ty : Option String) (props : List (String × ParamSchema))
    (req : Option (List String)) (dflt : Option PyVal) (d1 d2 : Option String)
    (hprim : ∀ p ∈ props, isPrimitiveLeaf p.2 = true) :
    ∃ fields,
      pydantic_model_from_param_schema (.mk (some title) ty (some props) req dflt d1 d2)
        = .ok (.modelT (title.replace " " "") fields)
      ∧ fields.map (fun e => e.1) = props.map (fun q => q.1)
      ∧ fields.map (fun e => e.2.2.required) = props.map (fun q => (req.getD []).contains q.1)
      ∧ fields.map (fun e => e.2.2.default)
          = props.map (fun q =>
              if (req.getD []).contains q.1 then none else some (claimedDefault q.2)) := by
  refine ⟨props.map (primEntry (req.getD [])), ?_, ?_, ?_, ?_⟩
  · simp [pydantic_model_from_param_schema, synthProps_primitive _ _ hprim,
      bind, Except.bind, pure, Except.pure]
  · simp [List.map_map, Function.comp, primEntry_fst]
  · simp [List.map_map, Function.comp, primEntry_required]
  · simp [List.map_map, Function.comp, primEntry_default]

/-- A small all-primitive property list: one field of each supported
primitive type, one carrying a schema-supplied default. -/
def c1Props : List (String × ParamSchema) :=
  [("text", .mk (some "Text Field") (some "string") none none none none none),
   ("count", .mk (some "Count") (some "number") none none (some (.pyFloat 7)) none none),
   ("flag", .mk (some "Flag") (some "boolean") none none none none none),
   ("items", .mk (some "Items") (some "array") none none none none none)]

/-- C1 witness: the theorem instantiated on a concrete four-property
schema with `required = ["text"]`. -/
theorem schema_synthesis_primitive_leaves_witness :
    (∀ p ∈ c1Props, isPrimitiveLeaf p.2 = true) ∧
    ∃ fields,
      pydantic_model_from_param_schema
          (.mk (some "Create File") (some "object") (some c1Props) (some ["text"]) none none none)
        = .ok (.modelT ("Create File".replace " " "") fields)
      ∧ fields.map (fun e => e.1) = c1Props.map (fun q => q.1)
      ∧ fields.map (fun e => e.2.2.required)
          = c1Props.map (fun q => ((some ["text"]).getD []).contains q.1)
      ∧ fields.map (fun e => e.2.2.default)
          = c1Props.map (fun q =>
              if ((some ["text"]).getD []).contains q.1 then none
              else some (claimedDefault q.2)) :=
  ⟨by decide, schema_synthesis_primitive_leaves "Create File" (some "object") c1Props
    (some ["text"]) none none none (by decide)⟩

theorem synthProps_unsupported (reqL : List String) (pre : List (String × ParamSchema))
    (n : String) (p : ParamSchema) (rest : List (String × ParamSchema)) (t pt : String)
    (hpre : ∀ q ∈ pre, isPrimitiveLeaf q.2 = true)
    (hty : p.ty = some t) (hpt : p.title = some pt) (hunk : fallback_values t = none) :
    synthProps reqL (pre ++ (n, p) :: rest) = .error (.keyError t) := by
  induction pre with
  | nil =>
    obtain ⟨ti', ty', pr', rq', df', e1, e2⟩ := p
    simp only [ParamSchema.ty] at hty
    simp only [ParamSchema.title] at hpt
    subst hty; subst hpt
    simp [synthProps, expectKey, hunk, bind, Except.bind, ParamSchema.ty, ParamSchema.title]
  | cons hd tlp ih =>
    obtain ⟨m, info⟩ := hd
    have hhd := hpre (m, info) (List.mem_cons_self _ _)
    have hok := ih (fun q hq => hpre q (List.mem_cons_of_mem _ hq))
    obtain ⟨ti, ty2, pr, rq, df, d1, d2⟩ := info
    simp only [isPrimitiveLeaf, ParamSchema.title, ParamSchema.ty, Bool.and_eq_true,
      Option.isSome_iff_exists] at hhd
    obtain ⟨⟨pt2, hpt2⟩, hty2⟩ := hhd
    subst hpt2
    split at hty2 <;> simp_all <;>
      by_cases hc : reqL.contains m <;>
        simp [synthProps, expectKey, fallback_values, bind, Except.bind, pure, Except.pure,
          schema_type_python_type_dict, ParamSchema.ty, ParamSchema.title, hok, hc,
          ParamSchema.default, ParamSchema.description, ParamSchema.desc]

/-- C5 amended: a leaf property whose `type` is not one of the supported
primitives and not `object` makes synthesis fail with the raw
`KeyError(prop_type)` coming from the eagerly evaluated
`fallback_values[prop_type]` lookup — not with a dedicated
`UnsupportedSchemaType` error (no such error exists in the code), and the
error carries only the unknown type string, not the property path. -/
theorem unsupported_leaf_raw_keyerror
    (title : String) (ty : Option String) (pre : List (String × ParamSchema))
    (n : String) (p : ParamSchema) (rest : List (String × ParamSchema))
    (req : Option (List String)) (dflt : Option PyVal) (d1 d2 : Option String)
    (t pt : String)
    (hpre : ∀ q ∈ pre, isPrimitiveLeaf q.2 = true)
    (hty : p.ty = some t) (hpt : p.title = some pt)
    (hunk : fallback_values t = none) :
    pydantic_model_from_param_schema
        (.mk (some title) ty (some (pre ++ (n, p) :: rest)) req dflt d1 d2)
      = .error (.keyError t) := by
  simp [pydantic_model_from_param_schema,
    synthProps_unsupported (req.getD []) pre n p rest t pt hpre hty hpt hunk,
    bind, Except.bind]

/-- A schema with a single leaf property of unsupported type `integer`;
the property even supplies a default and is listed as required. -/
def c5Schema : ParamSchema :=
  .mk (some "Sched") (some "object")
    (some [("delay", .mk (some "Delay") (some "integer") none none (some (.pyInt 3)) none none)])
    (some ["delay"]) none none none

/-- C5 counterexample: on a concrete schema with a leaf of type
`integer`, synthesis does not produce a dedicated `UnsupportedSchemaType`
synthesis error with the offending property path — it crashes with the
raw key-lookup failure `KeyError("integer")`, the very behaviour the
claim excludes. -/
theorem unsupported_leaf_counterexample :
    pydantic_model_from_param_schema c5Schema = .error (.keyError "integer") := by rfl

/-- C5 witness for the amended theorem: a two-property schema whose second
property has the unsupported type `integer`. -/
theorem unsupported_leaf_raw_keyerror_witness :
    pydantic_model_from_param_schema
        (.mk (some "Job") (some "object")
          (some [("name", .mk (some "Name") (some "string") none none none none none),
                 ("retries", .mk (some "Retries") (some "integer") none none none none none)])
          none none none none)
      = .error (.keyError "integer") :=
  unsupported_leaf_raw_keyerror "Job" (some "object")
    [("name", .mk (some "Name") (some "string") none none none none none)]
    "retries" (.mk (some "Retries") (some "integer") none none none none none) []
    none none none none "integer" "Retries" (by decide) rfl rfl rfl

/-! ## Runtime registry (`python/composio/tools/base/runtime.py`)

`_wrap` creates a wrapped action class with `enum = f.__name__.upper()`,
prepends it to the tool's existing action list and rebuilds the tool class
via `_create_tool_class`; building the tool class runs
`RuntimeToolMeta.__init__`, which walks `cls.actions()` and mutates every
listed action class in place: `action.tool = cls.name;
action.enum = f"TOOLENUM_ACTIONENUM"`.  Since the old action classes
are the same Python objects, repeated registrations under one tool name
re-prefix the enums of the previously registered actions. -/

/-- A wrapped runtime action class.  `id` models the Python object
identity of the class created by `_wrap` (classes are numbered in
creation order); `enum` is the mutable class attribute rewritten by the
metaclass. -/
structure ActionCls where
  id : Nat
  name : String
  tool : String
  enum : String
deriving Repr, DecidableEq

/-- Registration state: `registry["runtime"]` maps a tool name to the
action list of its current tool class; `runtimeActions` is the
`add_runtime_action` enum map (enum key at registration time, action
name); `nextId` supplies class identities. -/
structure RegState where
  runtime : List (String × List ActionCls)
  runtimeActions : List (String × String)
  nextId : Nat
deriving Repr, DecidableEq

def RegState.empty : RegState := ⟨[], [], 0⟩

/-- The name `_create_tool_class` gives the created tool class:
`inflection.camelize(name)`.  `RuntimeToolMeta.__init__` compares this
name against `"RuntimeTool"` (runtime.py lines 81-82) and returns
immediately — running no attribute setup and no enum renaming — when it
matches, which happens for the tool name `"runtime_tool"`. -/
def toolClsName (toolname : String) : String := pyCamelize toolname

/-- The `name` attribute the metaclass stores on a tool class:
`getattr(cls, "mame", inflection.underscore(cls.__name__))` — the
`"mame"` attribute (a typo in the source) never exists, so the fallback
`underscore(camelize(toolname))` always fires. -/
def toolAttrName (toolname : String) : String :=
  pyUnderscore (pyCamelize toolname)

/-- The enum the metaclass computes for a tool class:
`getattr(cls, "enum", cls.name).upper()`; no `enum` attribute exists on
a freshly created tool class, so this is
`underscore(camelize(toolname)).upper()`. -/
def toolEnum (toolname : String) : String := pyUpper (toolAttrName toolname)

/-- One step of the metaclass loop over `cls.actions()`:
`action.tool = cls.name; action.enum = f"TOOLENUM_ACTIONENUM"`. -/
def metaRename (toolname : String) (a : ActionCls) : ActionCls :=
  { a with tool := toolAttrName toolname, enum := toolEnum toolname ++ "_" ++ a.enum }

/-- `_wrap` from `runtime.py` (the registry-relevant part): create the
wrapped class with `enum = f.__name__.upper()`, prepend it to
`registry["runtime"][toolname].actions()`, build the tool class — whose
metaclass renames every listed action UNLESS the created class is named
`"RuntimeTool"`, in which case the `name == "RuntimeTool"` guard skips
the whole `__init__` body — store the new tool class, and record
`add_runtime_action(cls.enum, cls.data)` using the new class's (renamed
or untouched) enum. -/
def wrap (st : RegState) (toolname fname : String) : RegState :=
  let cls : ActionCls := ⟨st.nextId, fname, toolname, pyUpper fname⟩
  let existing := (dictGet toolname st.runtime).getD []
  let actions :=
    if toolClsName toolname = "RuntimeTool" then cls :: existing
    else (cls :: existing).map (metaRename toolname)
  let newCls :=
    if toolClsName toolname = "RuntimeTool" then cls
    else metaRename toolname cls
  { runtime := dictSet toolname actions st.runtime
    runtimeActions := dictSet newCls.enum fname st.runtimeActions
    nextId := st.nextId + 1 }

/-- A sequence of registrations, applied in list order to the empty
registry. -/
def runRegs (regs : List (String × String)) : RegState :=
  regs.foldl (fun st q => wrap st q.1 q.2) RegState.empty

/-- `k` copies of the tool-enum separator prefix in front of a base
enum. -/
def nestedEnum (te : String) : Nat → String → String
  | 0, base => base
  | k + 1, base => te ++ "_" ++ nestedEnum te k base

theorem dictGet_dictSet_eq {α : Type} (k : String) (v : α) (d : List (String × α)) :
    dictGet k (dictSet k v d) = some v := by
  induction d with
  | nil => simp [dictGet, dictSet]
  | cons hd tl ih =>
    by_cases h : hd.1 = k <;> simp [dictGet, dictSet, h, ih]

theorem dictGet_dictSet_ne {α : Type} (k k' : String) (v : α) (d : List (String × α))
    (h : k ≠ k') : dictGet k (dictSet k' v d) = dictGet k d := by
  induction d with
  | nil => simp [dictGet, dictSet, h.symm]
  | cons hd tl ih =>
    by_cases h1 : hd.1 = k' <;> by_cases h2 : hd.1 = k <;>
      simp_all [dictGet, dictSet]

/-- The enum invariant actually maintained by the registry.  For an
ordinary tool name the action at position `i` of the tool's action list
carries `i + 1` copies of the tool prefix in front of its uppercased
name; for the exceptional tool name whose camelization is exactly
`"RuntimeTool"` the metaclass guard skips every rewrite, so the enum
stays the plain uppercased action name forever. -/
def enumInvariant (st : RegState) : Prop :=
  ∀ t l, dictGet t st.runtime = some l →
    ∀ i a, l.get? i = some a →
      (toolClsName t = "RuntimeTool" → a.enum = pyUpper a.name)
      ∧ (toolClsName t ≠ "RuntimeTool" →
          a.enum = nestedEnum (toolEnum t) (i + 1) (pyUpper a.name))

theorem enumInvariant_wrap (st : RegState) (t0 f : String) (h : enumInvariant st) :
    enumInvariant (wrap st t0 f) := by
  intro t l hget i a hia
  by_cases ht : t = t0
  · subst ht
    rw [wrap] at hget
    simp only [dictGet_dictSet_eq] at hget
    by_cases hskip : toolClsName t = "RuntimeTool"
    · rw [if_pos hskip] at hget
      obtain rfl := Option.some.inj hget
      refine ⟨fun _ => ?_, fun hne => absurd hskip hne⟩
      rcases i with _ | j
      · simp only [List.get?] at hia
        obtain rfl := Option.some.inj hia
        rfl
      · simp only [List.get?] at hia
        rcases hprev : dictGet t st.runtime with _ | prev
        · rw [hprev] at hia; simp at hia
        · rw [hprev] at hia
          exact (h t prev hprev j a (by simpa using hia)).1 hskip
    · rw [if_neg hskip] at hget
      obtain rfl := Option.some.inj hget
      refine ⟨fun he => absurd he hskip, fun _ => ?_⟩
      rcases i with _ | j
      · simp only [List.map_cons, List.get?] at hia
        obtain rfl := Option.some.inj hia
        simp [metaRename, nestedEnum]
      · simp only [List.map_cons, List.get?, List.get?_map] at hia
        rcases hb : ((dictGet t st.runtime).getD []).get? j with _ | b
        · rw [hb] at hia; simp at hia
        · rw [hb] at hia
          simp only [Option.map_some'] at hia
          obtain rfl := Option.some.inj hia
          rcases hprev : dictGet t st.runtime with _ | prev
          · rw [hprev] at hb; simp at hb
          · rw [hprev] at hb
            have := (h t prev hprev j b (by simpa using hb)).2 hskip
            simp [metaRename, nestedEnum, this]
  · rw [wrap] at hget
    simp only [dictGet_dictSet_ne t t0 _ _ ht] at hget
    exact h t l hget i a hia

theorem enumInvariant_runRegs (regs : List (String × String)) :
    enumInvariant (runRegs regs) := by
  have main : ∀ st, enumInvariant st →
      enumInvariant (regs.foldl (fun st q => wrap st q.1 q.2) st) := by
    induction regs with
    | nil => exact fun st h => h
    | cons q rest ih => exact fun st h => ih _ (enumInvariant_wrap st q.1 q.2 h)
  apply main
  intro t l hget
  simp [RegState.empty, dictGet] at hget

/-- C2 amended: after any sequence of registrations, for a tool whose
camelized class name is not `"RuntimeTool"` the action at position `i`
of the tool's action list has enum equal to `i + 1` copies of
`TOOLENUM ++ "_"` followed by `uppercase(action name)`, where
`TOOLENUM = underscore(camelize(toolname)).upper()`: the most recently
registered action (position `0`) has enum
`TOOLENUM ++ "_" ++ uppercase(name)`, but each earlier action has gained
one extra `TOOLENUM ++ "_"` prefix per subsequent registration under the
same tool name.  For the exceptional tool name camelizing to
`"RuntimeTool"` (e.g. `"runtime_tool"`), the metaclass's
`name == "RuntimeTool"` guard skips the rewrite at every registration
and the enum stays the plain `uppercase(action name)`. -/
theorem action_enum_after_registrations (regs : List (String × String)) (t : String)
    (l : List ActionCls) (hl : dictGet t (runRegs regs).runtime = some l)
    (i : Nat) (a : ActionCls) (ha : l.get? i = some a) :
    (toolClsName t = "RuntimeTool" → a.enum = pyUpper a.name)
    ∧ (toolClsName t ≠ "RuntimeTool" →
        a.enum = nestedEnum (toolEnum t) (i + 1) (pyUpper a.name)) :=
  enumInvariant_runRegs regs t l hl i a ha

/-- C2 counterexample: register action `a`, then action `b`, under tool
`tool`.  The previously registered action `a` is still reachable from the
registry, but its enum is `"TOOL_TOOL_A"`, not
`uppercase(tool) ++ "_" ++ uppercase(name) = "TOOL_A"`: the second
registration re-namespaced it a second time. -/
theorem action_enum_counterexample :
    ((dictGet "tool" (runRegs [("tool", "a"), ("tool", "b")]).runtime).getD []).map
        (fun a => (a.name, a.enum))
      = [("b", "TOOL_B"), ("a", "TOOL_TOOL_A")]
    ∧ ("TOOL_TOOL_A" : String) ≠ toolEnum "tool" ++ "_" ++ pyUpper "a" := by
  exact ⟨by decide, by decide⟩

/-- The concrete action list of tool `tool` after registering `a` then
`b`. -/
def c2List : List ActionCls :=
  [⟨1, "b", "tool", "TOOL_B"⟩, ⟨0, "a", "tool", "TOOL_TOOL_A"⟩]

/-- The concrete action list of the exceptional tool `runtime_tool`
after registering `a` then `b`: the metaclass guard fired both times, so
no enum was ever tool-prefixed. -/
def rtList : List ActionCls :=
  [⟨1, "b", "runtime_tool", "B"⟩, ⟨0, "a", "runtime_tool", "A"⟩]

/-- C2 witness for the amended theorem: instantiated at the two-step
registration sequence under `tool` at position `1` (the older action
`a`, doubly prefixed), and at the same sequence under the exceptional
name `runtime_tool` (no prefix at all). -/
theorem action_enum_after_registrations_witness :
    (dictGet "tool" (runRegs [("tool", "a"), ("tool", "b")]).runtime = some c2List
      ∧ c2List.get? 1 = some (⟨0, "a", "tool", "TOOL_TOOL_A"⟩ : ActionCls)
      ∧ toolClsName "tool" ≠ "RuntimeTool"
      ∧ (⟨0, "a", "tool", "TOOL_TOOL_A"⟩ : ActionCls).enum
          = nestedEnum (toolEnum "tool") 2 (pyUpper "a"))
    ∧ (dictGet "runtime_tool"
          (runRegs [("runtime_tool", "a"), ("runtime_tool", "b")]).runtime = some rtList
      ∧ rtList.get? 1 = some (⟨0, "a", "runtime_tool", "A"⟩ : ActionCls)
      ∧ toolClsName "runtime_tool" = "RuntimeTool"
      ∧ (⟨0, "a", "runtime_tool", "A"⟩ : ActionCls).enum = pyUpper "a") :=
  ⟨⟨by decide, by decide, by decide,
    (action_enum_after_registrations [("tool", "a"), ("tool", "b")] "tool" c2List
      (by decide) 1 _ (by decide)).2 (by decide)⟩,
   ⟨by decide, by decide, by decide,
    (action_enum_after_registrations [("runtime_tool", "a"), ("runtime_tool", "b")]
      "runtime_tool" rtList (by decide) 1 _ (by decide)).1 (by decide)⟩⟩

/-- C8: registering a new action under a tool name yields an action list
whose head is the new action and whose tail is exactly the previously
registered actions in their prior order (identity tracked by class id and
name, which the metaclass never rewrites). -/
theorem register_prepends (st : RegState) (toolname fname : String) :
    ((dictGet toolname (wrap st toolname fname).runtime).getD []).map (fun a => (a.id, a.name))
      = (st.nextId, fname)
          :: ((dictGet toolname st.runtime).getD []).map (fun a => (a.id, a.name)) := by
  by_cases hskip : toolClsName toolname = "RuntimeTool" <;>
    simp [wrap, hskip, dictGet_dictSet_eq, List.map_map, Function.comp, metaRename]


/-! ## Python string primitives

The embedded code relies on `str.strip`, `str.split`, `str.replace`,
`in` (substring test), `str.join`, `str.title`, `str.upper` and
`inflection.camelize`.  These are implemented here over the character
list of a `String` by structural recursion (with a fuel argument equal
to the remaining length plus one, which is always sufficient because
every step consumes at least one character), so that every definition
evaluates inside the kernel. -/

/-- The ASCII whitespace stripped by Python `str.strip()`. -/
def isPySpace (c : Char) : Bool :=
  c = ' ' || c = '\t' || c = '\n' || c = '\r' || c = '\x0b' || c = '\x0c'

/-- Python `s.lstrip().rstrip()` (equivalently `s.strip()`). -/
def pyStrip (s : String) : String :=
  ⟨((s.data.dropWhile isPySpace).reverse.dropWhile isPySpace).reverse⟩

def splitCharsF (sep : List Char) : Nat → List Char → List Char → List (List Char)
  | 0, rem, cur => [cur.reverse ++ rem]
  | _ + 1, [], cur => [cur.reverse]
  | fuel + 1, c :: rest, cur =>
    if !sep.isEmpty && sep.isPrefixOf (c :: rest) then
      cur.reverse :: splitCharsF sep fuel ((c :: rest).drop sep.length) []
    else
      splitCharsF sep fuel rest (c :: cur)

/-- Python `s.split(sep)` for a non-empty separator. -/
def pySplitOn (s sep : String) : List String :=
  (splitCharsF sep.data (s.data.length + 1) s.data []).map (fun l => ⟨l⟩)

def replaceCharsF (pat rep : List Char) : Nat → List Char → List Char
  | 0, rem => rem
  | _ + 1, [] => []
  | fuel + 1, c :: rest =>
    if !pat.isEmpty && pat.isPrefixOf (c :: rest) then
      rep ++ replaceCharsF pat rep fuel ((c :: rest).drop pat.length)
    else
      c :: replaceCharsF pat rep fuel rest

/-- Python `s.replace(pat, rep)`: all non-overlapping occurrences,
leftmost first. -/
def pyReplace (s pat rep : String) : String :=
  ⟨replaceCharsF pat.data rep.data (s.data.length + 1) s.data⟩

def containsChars (pat : List Char) : List Char → Bool
  | [] => pat.isEmpty
  | c :: rest => pat.isPrefixOf (c :: rest) || containsChars pat rest

/-- Python `sub in s` substring test. -/
def pyContains (s sub : String) : Bool := containsChars sub.data s.data

/-- Python `sep.join(parts)`. -/
def pyJoin (sep : String) : List String → String
  | [] => ""
  | [x] => x
  | x :: y :: xs => x ++ sep ++ pyJoin sep (y :: xs)

/-- Scanner for Python `str.title()` (ASCII): a letter is uppercased
when the previous character is not a letter and lowercased otherwise;
non-letters are copied and reset the word boundary. -/
def pyTitleChars (prevAlpha : Bool) : List Char → List Char
  | [] => []
  | c :: rest =>
    if c.isAlpha then
      (if prevAlpha then c.toLower else c.toUpper) :: pyTitleChars true rest
    else
      c :: pyTitleChars false rest

/-- Python `str.title()` on ASCII strings. -/
def pyTitle (s : String) : String := ⟨pyTitleChars false s.data⟩

/-! ## Signature compiler (`python/composio/tools/base/runtime.py`)

A callable `f` is embedded as its `inspect.getfullargspec` data plus its
docstring.  `argspec.annotations` is an insertion-ordered dict: the
annotated arguments in declaration order, then the key `"return"` when
the callable declares a return annotation; its keys are distinct. -/

/-- One metadata entry inside a `typing.Annotated[...]` annotation:
either an `ArgSpec(description=..., default=...)` instance (whose
`default` field defaults to Python `None`), or a plain value.  (An
`ArgSpec` in the second metadata position of a two-element annotation is
not modelled; the code would store the object itself as the default.) -/
inductive AnnotArg where
  | argSpec (description : String) (default : PyVal)
  | other (v : PyVal)
deriving Repr

/-- A Python annotation as the compiler discriminates it: a pydantic
`BaseModel` subclass, the `Shell` execution-context class, any other
plain type, or a `typing.Annotated[...]` wrapper. -/
inductive PyAnnot where
  | model (name : String)
  | shell
  | plain (name : String)
  | annotated (base : PyAnnot) (metas : List AnnotArg)
deriving Repr

/-- The result of `inspect.getfullargspec(f)`, as far as the compiler
reads it: positional argument names, the trailing default values, and
the annotations dict in insertion order. -/
structure FullArgSpec where
  args : List String
  defaults : List PyVal
  annotations : List (String × PyAnnot)
deriving Repr

/-- `issubclass(x, BaseModel)`: true for model classes, false for other
classes, and a `TypeError` when `x` is not a class (for example a
`typing.Annotated` object). -/
def issubclassBaseModel : PyAnnot → Except PyError Bool
  | .model _ => .ok true
  | .annotated _ _ => .error (.typeError "issubclass() arg 1 must be a class")
  | _ => .ok false

/-- `_is_simple_action` from `runtime.py`: returns `False` only when
neither `request_data` nor `metadata` occurs among the argument names;
otherwise it demands `BaseModel` subclasses for the `request_data` and
`return` annotations, raising `ValueError` when they are not (and a
`KeyError` when the annotation is missing altogether). -/
def is_simple_action (a : FullArgSpec) : Except PyError Bool :=
  if !a.args.contains "request_data" && !a.args.contains "metadata" then .ok false
  else do
    let ra ← expectKey "request_data" (dictGet "request_data" a.annotations)
    let rsub ← issubclassBaseModel ra
    if !rsub then
      .error (.valueError "`request_data` needs to be a `pydantic.BaseModel` object")
    else do
      let ta ← expectKey "return" (dictGet "return" a.annotations)
      let tsub ← issubclassBaseModel ta
      if !tsub then
        .error (.valueError "Return type needs to be a `pydantic.BaseModel` object")
      else .ok true

/-- `_parse_raw_type` from `runtime.py`:
`(annotation, " ".join(argument.split("_")).title())`. -/
def parse_raw_type (argument : String) (annot : PyAnnot) : PyAnnot × String :=
  (annot, pyTitle (pyJoin " " (pySplitOn argument "_")))

/-- `_parse_annotated_type` from `runtime.py`: a single `ArgSpec` gives
its description and default; a single string gives the description with
default `None`; a string plus a second value gives both; anything else
is a `ValueError`. -/
def parse_annotated_type (argument : String) (annot : PyAnnot) :
    Except PyError (PyAnnot × String × PyVal) :=
  match annot with
  | .annotated base [.argSpec d df] => .ok (base, d, df)
  | .annotated base [.other (.pyStr s)] => .ok (base, s, .pyNone)
  | .annotated base [.other (.pyStr s), .other v] => .ok (base, s, v)
  | _ => .error (.valueError ("Invalid type annotation for argument " ++ argument))

/-- The result of `_parse_docstring`: header line, `:param name: text`
entries, and the optional `:return name: text` entry. -/
structure ParsedDoc where
  header : String
  params : List (String × String)
  returns : Option (String × String)
deriving Repr

/-- One iteration of the `_parse_docstring` loop.  Python's
`param, description = line.replace(":param ", "").split(":")` raises
`ValueError` unless the split yields exactly two parts, and it rebinds
`description`, so the following `:return` test inspects the rebound
value. -/
def docLineFold (acc : List (String × String) × Option (String × String)) (line : String) :
    Except PyError (List (String × String) × Option (String × String)) :=
  if line = "" then .ok acc
  else do
    let (params0, returns0) := acc
    let (d, params) ←
      if pyContains line ":param" then
        match pySplitOn (pyReplace line ":param " "") ":" with
        | [pname, pdesc] => pure (pdesc, dictSet (pyStrip pname) (pyStrip pdesc) params0)
        | _ => Except.error (.valueError "values to unpack")
      else pure (line, params0)
    let returns ←
      if pyContains d ":return" then
        match pySplitOn (pyReplace d ":return " "") ":" with
        | [rname, rdesc] => pure (some (pyStrip rname, pyStrip rdesc))
        | _ => Except.error (.valueError "values to unpack")
      else pure returns0
    pure (params, returns)

/-- `_parse_docstring` from `runtime.py`. -/
def parse_docstring (docstr : String) : Except PyError ParsedDoc := do
  let lines := pySplitOn (pyStrip docstr) "\n"
  let header := lines.headD ""
  let (params, returns) ← lines.tail.foldlM docLineFold ([], none)
  pure ⟨header, params, returns⟩


/-- A pydantic `Field(default=..., description=...)` default: the
`Ellipsis` marker makes the field required, any other value (including
Python `None`) makes it optional with that default. -/
inductive FieldDefault where
  | ellipsis
  | val (v : PyVal)
deriving Repr

/-- One field of a synthesized request/response model. -/
structure SchemaField where
  ty : PyAnnot
  default : FieldDefault
  description : String
deriving Repr

/-- `annot is Shell`. -/
def isShell : PyAnnot → Bool
  | .shell => true
  | _ => false

/-- `getattr(annot, "__name__", "") == "Annotated"`. -/
def isAnnotated : PyAnnot → Bool
  | .annotated _ _ => true
  | _ => false

/-- The `for arg, annot in argspec.annotations.items()` loop of
`_build_executable_from_args`, threading the request schema, response
schema and `shell_argument` (a later `Shell` argument overwrites an
earlier one).  `defaults` is the mis-zipped
`dict(zip(reversed(argspec.annotations), reversed(argspec.defaults or [])))`
computed by the caller. -/
def buildFields (defaults : List (String × PyVal)) (pd : ParsedDoc) :
    List (String × PyAnnot) →
    List (String × SchemaField) × List (String × SchemaField) × Option String →
    Except PyError (List (String × SchemaField) × List (String × SchemaField) × Option String)
  | [], acc => .ok acc
  | (arg, annot) :: rest, (reqF, respF, shellArg) =>
    if isShell annot then
      buildFields defaults pd rest (reqF, respF, some arg)
    else do
      let (annottype, description, default) ←
        if isAnnotated annot then do
          let (t, d, v) ← parse_annotated_type arg annot
          pure (t, d, FieldDefault.val v)
        else
          let (t, d0) := parse_raw_type arg annot
          let d1 := (dictGet arg pd.params).getD d0
          let df : FieldDefault :=
            match dictGet arg defaults with
            | some v => .val v
            | none => .ellipsis
          let d2 :=
            if arg = "return" then
              match pd.returns with
              | some (_, rd) => rd
              | none => d1
            else d1
          pure (t, d2, df)
      if arg = "return" then
        let arg' := match pd.returns with
          | some (rn, _) => rn
          | none => arg
        buildFields defaults pd rest
          (reqF, dictSet arg' ⟨annottype, default, description⟩ respF, shellArg)
      else
        buildFields defaults pd rest
          (dictSet arg ⟨annottype, default, description⟩ reqF, respF, shellArg)

/-- The data carried by the `execute` wrapper and the two synthesized
model types returned by `_build_executable_from_args`. -/
structure BuildResult where
  requestFields : List (String × SchemaField)
  responseFields : List (String × SchemaField)
  requestName : String
  responseName : String
  shell_argument : Option String
  header : String
  returns : Option (String × String)
deriving Repr

/-- `_build_executable_from_args` from `runtime.py`.  Note the
`defaults` dict: it zips the REVERSED ANNOTATION KEYS (which include
`"return"` when the callable has a return annotation) with the reversed
default values, instead of zipping the reversed argument names.
`getattr(f, "__doc__")` is `None` for an undocumented callable and the
subsequent `.lstrip()` raises `AttributeError`. -/
def build_executable_from_args (fname : String) (doc : Option String) (a : FullArgSpec) :
    Except PyError BuildResult := do
  let defaults := List.zip (a.annotations.map Prod.fst).reverse a.defaults.reverse
  let d ← match doc with
    | some d => pure d
    | none => Except.error (.attributeError "NoneType object has no attribute lstrip")
  let pd ← parse_docstring d
  let (reqF, respF, shellArg) ← buildFields defaults pd a.annotations ([], [], none)
  pure
    { requestFields := reqF
      responseFields := respF
      requestName := pyCamelize fname ++ "Request"
      responseName := pyCamelize fname ++ "Response"
      shell_argument := shellArg
      header := pd.header
      returns := pd.returns }

/-- The entry point `_parse_schemas` returns: the original callable
itself on the simple path, or the synthesized `execute` wrapper. -/
inductive EntryPoint where
  | original
  | wrapped (br : BuildResult)
deriving Repr

/-- A request/response model as returned by `_parse_schemas`: on the
simple path the declared annotation object itself (referential
passthrough), on the signature path a freshly created model type. -/
inductive SchemaDecl where
  | declared (a : PyAnnot)
  | synthesized (name : String) (fields : List (String × SchemaField))
deriving Repr

/-- `_parse_schemas` from `runtime.py`. -/
def parse_schemas (fname : String) (doc : Option String) (a : FullArgSpec)
    (runs_on_shell : Bool) :
    Except PyError (EntryPoint × SchemaDecl × SchemaDecl × Bool) := do
  let simple ← is_simple_action a
  if simple then do
    let ra ← expectKey "request_data" (dictGet "request_data" a.annotations)
    let ta ← expectKey "return" (dictGet "return" a.annotations)
    pure (.original, .declared ra, .declared ta, runs_on_shell)
  else do
    let br ← build_executable_from_args fname doc a
    pure (.wrapped br, .synthesized br.requestName br.requestFields,
          .synthesized br.responseName br.responseFields, br.shell_argument.isSome)

/-- The `.shells` accessor of a workspace object. -/
structure Shells where
  recent : PyVal

/-- The external workspace collaborator: only `.shells.recent` is read
by the compiled wrapper. -/
structure WorkspaceObj where
  shells : Shells

/-- The invocation `metadata` mapping; the only key the wrapper reads is
`"workspace"` (a missing key raises `KeyError`). -/
structure Metadata where
  workspace : Option WorkspaceObj

/-- The kwargs assembly inside the `execute` closure of
`_build_executable_from_args`: `kwargs = request.model_dump()`, then
`kwargs[shell_argument] = metadata["workspace"].shells.recent` when a
shell argument was captured. -/
def executeKwargs (shellArg : Option String) (dump : List (String × PyVal))
    (md : Metadata) : Except PyError (List (String × PyVal)) :=
  match shellArg with
  | none => .ok dump
  | some s =>
    match md.workspace with
    | none => .error (.keyError "workspace")
    | some w => .ok (dictSet s w.shells.recent dump)

/-- The full `execute` closure: build the kwargs, call `f(**kwargs)`
(abstracted as a function of the kwargs dict), return model responses
unchanged and wrap any other value into the synthesized response schema
under the docstring return name (default `"return"`). -/
def executeCompiled (br : BuildResult) (f : List (String × PyVal) → PyVal)
    (request : List (String × PyVal)) (md : Metadata) : Except PyError PyVal := do
  let kwargs ← executeKwargs br.shell_argument request md
  match f kwargs with
  | .pyModel n fs => pure (.pyModel n fs)
  | r => pure (.pyModel br.responseName [((br.returns.map Prod.fst).getD "return", r)])


/-- C4: for a callable whose argument list names `request_data` and whose
annotations assign it and the return a pydantic model class, compilation
is the identity passthrough: the entry point is the original callable and
the returned request/response schemas are the declared annotation objects
themselves (`SchemaDecl.declared`, not a freshly synthesized model); and
when either annotation is present but not a model class, `_parse_schemas`
itself returns an error, i.e. the failure is raised eagerly at
compile/registration time, not at call time. -/
theorem simple_action_passthrough (fname : String) (doc : Option String) (a : FullArgSpec)
    (ros : Bool) (ra ta : PyAnnot)
    (hargs : a.args.contains "request_data" = true)
    (hra : dictGet "request_data" a.annotations = some ra)
    (hta : dictGet "return" a.annotations = some ta) :
    ((∃ rn, ra = .model rn) ∧ (∃ tn, ta = .model tn) →
        parse_schemas fname doc a ros = .ok (.original, .declared ra, .declared ta, ros))
    ∧ (¬ ((∃ rn, ra = .model rn) ∧ (∃ tn, ta = .model tn)) →
        ∃ e, parse_schemas fname doc a ros = .error e) := by
  have hmem : "request_data" ∈ a.args := by simpa using hargs
  constructor
  · rintro ⟨⟨rn, rfl⟩, ⟨tn, rfl⟩⟩
    simp [parse_schemas, is_simple_action, hmem, hra, hta, expectKey, issubclassBaseModel,
      bind, Except.bind, pure, Except.pure]
  · intro hnot
    cases ra with
    | model rn =>
      cases ta with
      | model tn => exact absurd ⟨⟨rn, rfl⟩, ⟨tn, rfl⟩⟩ hnot
      | shell =>
        exact ⟨.valueError "Return type needs to be a `pydantic.BaseModel` object", by
          simp [parse_schemas, is_simple_action, hmem, hra, hta, expectKey,
            issubclassBaseModel, bind, Except.bind, pure, Except.pure]⟩
      | plain pn =>
        exact ⟨.valueError "Return type needs to be a `pydantic.BaseModel` object", by
          simp [parse_schemas, is_simple_action, hmem, hra, hta, expectKey,
            issubclassBaseModel, bind, Except.bind, pure, Except.pure]⟩
      | annotated b m =>
        exact ⟨.typeError "issubclass() arg 1 must be a class", by
          simp [parse_schemas, is_simple_action, hmem, hra, hta, expectKey,
            issubclassBaseModel, bind, Except.bind, pure, Except.pure]⟩
    | shell =>
      exact ⟨.valueError "`request_data` needs to be a `pydantic.BaseModel` object", by
        simp [parse_schemas, is_simple_action, hmem, hra, expectKey,
          issubclassBaseModel, bind, Except.bind, pure, Except.pure]⟩
    | plain pn =>
      exact ⟨.valueError "`request_data` needs to be a `pydantic.BaseModel` object", by
        simp [parse_schemas, is_simple_action, hmem, hra, expectKey,
          issubclassBaseModel, bind, Except.bind, pure, Except.pure]⟩
    | annotated b m =>
      exact ⟨.typeError "issubclass() arg 1 must be a class", by
        simp [parse_schemas, is_simple_action, hmem, hra, expectKey,
          issubclassBaseModel, bind, Except.bind, pure, Except.pure]⟩

/-- The argspec of a simple action
`def goto(self, request_data: GotoRequest, metadata: dict) -> GotoResponse`. -/
def c4ArgSpec : FullArgSpec :=
  ⟨["self", "request_data", "metadata"], [],
   [("request_data", .model "GotoRequest"), ("return", .model "GotoResponse")]⟩

/-- C4 witness: the theorem instantiated at a concrete simple action. -/
theorem simple_action_passthrough_witness :
    ((∃ rn, PyAnnot.model "GotoRequest" = PyAnnot.model rn)
        ∧ (∃ tn, PyAnnot.model "GotoResponse" = PyAnnot.model tn) →
      parse_schemas "goto" none c4ArgSpec false
        = .ok (.original, .declared (.model "GotoRequest"),
               .declared (.model "GotoResponse"), false))
    ∧ (¬ ((∃ rn, PyAnnot.model "GotoRequest" = PyAnnot.model rn)
        ∧ (∃ tn, PyAnnot.model "GotoResponse" = PyAnnot.model tn)) →
      ∃ e, parse_schemas "goto" none c4ArgSpec false = .error e) :=
  simple_action_passthrough "goto" none c4ArgSpec false
    (.model "GotoRequest") (.model "GotoResponse") rfl rfl rfl

/-- Proof-side closed form of one raw (non-`Annotated`, non-`Shell`)
iteration of the `_build_executable_from_args` loop. -/
def rawField (defaults : List (String × PyVal)) (pd : ParsedDoc) (arg : String)
    (annot : PyAnnot) : SchemaField :=
  let d0 := (parse_raw_type arg annot).2
  let d1 := (dictGet arg pd.params).getD d0
  let d2 :=
    if arg = "return" then
      match pd.returns with
      | some (_, rd) => rd
      | none => d1
    else d1
  ⟨(parse_raw_type arg annot).1,
   (match dictGet arg defaults with
    | some v => FieldDefault.val v
    | none => FieldDefault.ellipsis),
   d2⟩

/-- The request-schema effect of one loop iteration. -/
def stepReq (defaults : List (String × PyVal)) (pd : ParsedDoc)
    (d : List (String × SchemaField)) (q : String × PyAnnot) : List (String × SchemaField) :=
  if isShell q.2 || q.1 = "return" then d
  else dictSet q.1 (rawField defaults pd q.1 q.2) d

/-- The response-schema effect of one loop iteration. -/
def stepResp (defaults : List (String × PyVal)) (pd : ParsedDoc)
    (d : List (String × SchemaField)) (q : String × PyAnnot) : List (String × SchemaField) :=
  if isShell q.2 || ¬ q.1 = "return" then d
  else
    dictSet
      (match pd.returns with
       | some (rn, _) => rn
       | none => q.1)
      (rawField defaults pd q.1 q.2) d

/-- The `shell_argument` effect of one loop iteration: the last `Shell`
annotation wins. -/
def stepShell (s : Option String) (q : String × PyAnnot) : Option String :=
  if isShell q.2 then some q.1 else s

theorem buildFields_raw (defaults : List (String × PyVal)) (pd : ParsedDoc)
    (l : List (String × PyAnnot))
    (acc : List (String × SchemaField) × List (String × SchemaField) × Option String)
    (h : ∀ q ∈ l, isAnnotated q.2 = false) :
    buildFields defaults pd l acc
      = .ok (l.foldl (stepReq defaults pd) acc.1,
             l.foldl (stepResp defaults pd) acc.2.1,
             l.foldl stepShell acc.2.2) := by
  induction l generalizing acc with
  | nil => rfl
  | cons q rest ih =>
    obtain ⟨arg, annot⟩ := q
    obtain ⟨r0, p0, s0⟩ := acc
    have hq := h (arg, annot) (List.mem_cons_self _ _)
    have hrest := fun q hq => h q (List.mem_cons_of_mem _ hq)
    by_cases hsh : isShell annot
    · simp [buildFields, hsh, ih _ hrest, stepReq, stepResp, stepShell]
    · by_cases hret : arg = "return"
      · subst hret
        simp [buildFields, hsh, hq, ih _ hrest, stepReq, stepResp, stepShell,
          rawField, bind, Except.bind, pure, Except.pure]
      · simp [buildFields, hsh, hq, hret, ih _ hrest, stepReq, stepResp, stepShell,
          rawField, bind, Except.bind, pure, Except.pure]

theorem foldl_stepShell_none (l : List (String × PyAnnot)) (s0 : Option String)
    (h : ∀ q ∈ l, isShell q.2 = false) :
    l.foldl stepShell s0 = s0 := by
  induction l generalizing s0 with
  | nil => rfl
  | cons q rest ih =>
    have hq := h q (List.mem_cons_self _ _)
    simp [List.foldl_cons, stepShell, hq,
      ih _ (fun q hq => h q (List.mem_cons_of_mem _ hq))]

theorem dictGet_foldl_stepReq_none (defaults : List (String × PyVal)) (pd : ParsedDoc)
    (l : List (String × PyAnnot)) (d0 : List (String × SchemaField)) (s : String)
    (h : ∀ q ∈ l, q.1 = s → isShell q.2 = true)
    (h0 : dictGet s d0 = none) :
    dictGet s (l.foldl (stepReq defaults pd) d0) = none := by
  induction l generalizing d0 with
  | nil => exact h0
  | cons q rest ih =>
    have hq := h q (List.mem_cons_self _ _)
    have hrest := fun q hq => h q (List.mem_cons_of_mem _ hq)
    by_cases hsh : isShell q.2
    · simp [List.foldl_cons, stepReq, hsh]
      exact ih _ hrest h0
    · have hne : q.1 ≠ s := fun he => hsh (hq he)
      by_cases hret : q.1 = "return"
      · simp [List.foldl_cons, stepReq, hsh, hret]
        exact ih _ hrest h0
      · simp [List.foldl_cons, stepReq, hsh, hret]
        exact ih _ hrest
          (by rw [dictGet_dictSet_ne s q.1 _ _ (fun he => hne he.symm)]; exact h0)


/-- C6: for a callable on the signature path with exactly one
`Shell`-annotated argument (all other annotations raw), compilation
succeeds, reports `runs_on_shell = true`, excludes the shell argument
from the synthesized request model, records it as the captured
`shell_argument`, and at every invocation the kwargs the wrapper passes
to the callable bind the shell argument to
`metadata["workspace"].shells.recent` while every other name keeps the
value from the validated request's dump.  (Key hypotheses `hkey` and the
dict shapes reflect that annotation keys are distinct.) -/
theorem shell_argument_excluded_and_routed
    (fname d : String) (a : FullArgSpec) (pd : ParsedDoc) (s : String) (ros : Bool)
    (pre post : List (String × PyAnnot))
    (hnr : a.args.contains "request_data" = false)
    (hnm : a.args.contains "metadata" = false)
    (hann : a.annotations = pre ++ (s, .shell) :: post)
    (hraw : ∀ q ∈ pre ++ post, isAnnotated q.2 = false ∧ isShell q.2 = false)
    (hkey : ∀ q ∈ pre ++ post, q.1 ≠ s)
    (hdoc : parse_docstring d = .ok pd) :
    ∃ br,
      parse_schemas fname (some d) a ros
        = .ok (.wrapped br, .synthesized br.requestName br.requestFields,
               .synthesized br.responseName br.responseFields, true)
      ∧ br.shell_argument = some s
      ∧ dictGet s br.requestFields = none
      ∧ ∀ (dump : List (String × PyVal)) (w : WorkspaceObj),
          executeKwargs br.shell_argument dump ⟨some w⟩
            = .ok (dictSet s w.shells.recent dump)
          ∧ dictGet s (dictSet s w.shells.recent dump) = some w.shells.recent
          ∧ ∀ n, n ≠ s → dictGet n (dictSet s w.shells.recent dump) = dictGet n dump := by
  have hannot_raw : ∀ q ∈ a.annotations, isAnnotated q.2 = false := by
    rw [hann]; intro q hq
    rcases List.mem_append.mp hq with h1 | h2
    · exact (hraw q (List.mem_append.mpr (Or.inl h1))).1
    · rcases List.mem_cons.mp h2 with rfl | h3
      · rfl
      · exact (hraw q (List.mem_append.mpr (Or.inr h3))).1
  have hnr' : "request_data" ∉ a.args := by simpa using hnr
  have hnm' : "metadata" ∉ a.args := by simpa using hnm
  have hsimple : is_simple_action a = .ok false := by
    simp [is_simple_action, hnr', hnm']
  have hshell : a.annotations.foldl stepShell none = some s := by
    rw [hann, List.foldl_append, List.foldl_cons]
    have hstep : stepShell (List.foldl stepShell none pre) (s, PyAnnot.shell) = some s := by
      simp [stepShell, isShell]
    rw [hstep]
    exact foldl_stepShell_none post (some s)
      (fun q hq => (hraw q (List.mem_append.mpr (Or.inr hq))).2)
  have hbf := buildFields_raw
    (List.zip (a.annotations.map Prod.fst).reverse a.defaults.reverse) pd
    a.annotations ([], [], none) hannot_raw
  have hbuild : build_executable_from_args fname (some d) a = .ok
      ⟨a.annotations.foldl
        (stepReq (List.zip (a.annotations.map Prod.fst).reverse a.defaults.reverse) pd) [],
       a.annotations.foldl
        (stepResp (List.zip (a.annotations.map Prod.fst).reverse a.defaults.reverse) pd) [],
       pyCamelize fname ++ "Request", pyCamelize fname ++ "Response",
       some s, pd.header, pd.returns⟩ := by
    unfold build_executable_from_args
    simp [hdoc, hbf, hshell, bind, Except.bind, pure, Except.pure]
  have hreq : dictGet s (a.annotations.foldl
      (stepReq (List.zip (a.annotations.map Prod.fst).reverse a.defaults.reverse) pd) [])
      = none := by
    apply dictGet_foldl_stepReq_none
    · intro q hq he
      rw [hann] at hq
      rcases List.mem_append.mp hq with h1 | h2
      · exact absurd he (hkey q (List.mem_append.mpr (Or.inl h1)))
      · rcases List.mem_cons.mp h2 with rfl | h3
        · rfl
        · exact absurd he (hkey q (List.mem_append.mpr (Or.inr h3)))
    · rfl
  refine ⟨⟨a.annotations.foldl
      (stepReq (List.zip (a.annotations.map Prod.fst).reverse a.defaults.reverse) pd) [],
    a.annotations.foldl
      (stepResp (List.zip (a.annotations.map Prod.fst).reverse a.defaults.reverse) pd) [],
    pyCamelize fname ++ "Request", pyCamelize fname ++ "Response",
    some s, pd.header, pd.returns⟩, ?_, rfl, hreq, ?_⟩
  · simp [parse_schemas, hsimple, hbuild, bind, Except.bind, pure, Except.pure]
  · intro dump w
    refine ⟨rfl, dictGet_dictSet_eq s _ dump, fun n hn => ?_⟩
    exact dictGet_dictSet_ne n s _ dump (fun he => hn he)

/-- The argspec of `def goto(shell: Shell, line_number: int) -> str`. -/
def c6ArgSpec : FullArgSpec :=
  ⟨["shell", "line_number"], [],
   [("shell", .shell), ("line_number", .plain "int"), ("return", .plain "str")]⟩

/-- The docstring of the concrete C6 callable. -/
def c6Doc : String :=
  "Move view.\n:param line_number: target line\n:return output: command output"

/-- The parse of `c6Doc`. -/
def c6Pd : ParsedDoc :=
  ⟨"Move view.", [("line_number", "target line")], some ("output", "command output")⟩

/-- C6 witness: the theorem instantiated at the concrete shell-using
callable of the specification's test scenario. -/
theorem shell_argument_excluded_and_routed_witness :
    ∃ br,
      parse_schemas "goto" (some c6Doc) c6ArgSpec true
        = .ok (.wrapped br, .synthesized br.requestName br.requestFields,
               .synthesized br.responseName br.responseFields, true)
      ∧ br.shell_argument = some "shell"
      ∧ dictGet "shell" br.requestFields = none
      ∧ ∀ (dump : List (String × PyVal)) (w : WorkspaceObj),
          executeKwargs br.shell_argument dump ⟨some w⟩
            = .ok (dictSet "shell" w.shells.recent dump)
          ∧ dictGet "shell" (dictSet "shell" w.shells.recent dump) = some w.shells.recent
          ∧ ∀ n, n ≠ "shell" →
              dictGet n (dictSet "shell" w.shells.recent dump) = dictGet n dump :=
  shell_argument_excluded_and_routed "goto" c6Doc c6ArgSpec c6Pd "shell" true
    [] [("line_number", .plain "int"), ("return", .plain "str")]
    rfl rfl rfl (by decide) (by decide) (by rfl)

/-- C7 amended: a callable declaring more than one `Shell`-annotated
argument is NOT rejected: compilation succeeds with no error, every
`Shell`-annotated argument is excluded from the synthesized request
model, and only the LAST `Shell` argument in annotation order is the one
captured as `shell_argument` (and hence supplied from the invocation
metadata at call time); the earlier ones are silently dropped. -/
theorem multiple_shell_arguments_no_error
    (fname d : String) (a : FullArgSpec) (pd : ParsedDoc) (s1 s2 : String) (ros : Bool)
    (pre mid post : List (String × PyAnnot))
    (hnr : a.args.contains "request_data" = false)
    (hnm : a.args.contains "metadata" = false)
    (hann : a.annotations = pre ++ (s1, .shell) :: (mid ++ (s2, .shell) :: post))
    (hraw : ∀ q ∈ pre ++ mid ++ post, isAnnotated q.2 = false)
    (hpost : ∀ q ∈ post, isShell q.2 = false)
    (hk1 : ∀ q ∈ a.annotations, q.1 = s1 → isShell q.2 = true)
    (hk2 : ∀ q ∈ a.annotations, q.1 = s2 → isShell q.2 = true)
    (hdoc : parse_docstring d = .ok pd) :
    ∃ br,
      parse_schemas fname (some d) a ros
        = .ok (.wrapped br, .synthesized br.requestName br.requestFields,
               .synthesized br.responseName br.responseFields, true)
      ∧ br.shell_argument = some s2
      ∧ dictGet s1 br.requestFields = none
      ∧ dictGet s2 br.requestFields = none := by
  have hannot_raw : ∀ q ∈ a.annotations, isAnnotated q.2 = false := by
    rw [hann]; intro q hq
    rcases List.mem_append.mp hq with h1 | h2
    · exact hraw q (by simp [List.mem_append, h1])
    · rcases List.mem_cons.mp h2 with rfl | h3
      · rfl
      · rcases List.mem_append.mp h3 with h4 | h5
        · exact hraw q (by simp [List.mem_append, h4])
        · rcases List.mem_cons.mp h5 with rfl | h6
          · rfl
          · exact hraw q (by simp [List.mem_append, h6])
  have hnr' : "request_data" ∉ a.args := by simpa using hnr
  have hnm' : "metadata" ∉ a.args := by simpa using hnm
  have hsimple : is_simple_action a = .ok false := by
    simp [is_simple_action, hnr', hnm']
  have hshell : a.annotations.foldl stepShell none = some s2 := by
    rw [hann, List.foldl_append, List.foldl_cons, List.foldl_append, List.foldl_cons]
    have hstep2 : stepShell
        (List.foldl stepShell (stepShell (List.foldl stepShell none pre) (s1, PyAnnot.shell))
          mid)
        (s2, PyAnnot.shell) = some s2 := by
      simp [stepShell, isShell]
    rw [hstep2]
    exact foldl_stepShell_none post (some s2) hpost
  have hbf := buildFields_raw
    (List.zip (a.annotations.map Prod.fst).reverse a.defaults.reverse) pd
    a.annotations ([], [], none) hannot_raw
  have hbuild : build_executable_from_args fname (some d) a = .ok
      ⟨a.annotations.foldl
        (stepReq (List.zip (a.annotations.map Prod.fst).reverse a.defaults.reverse) pd) [],
       a.annotations.foldl
        (stepResp (List.zip (a.annotations.map Prod.fst).reverse a.defaults.reverse) pd) [],
       pyCamelize fname ++ "Request", pyCamelize fname ++ "Response",
       some s2, pd.header, pd.returns⟩ := by
    unfold build_executable_from_args
    simp [hdoc, hbf, hshell, bind, Except.bind, pure, Except.pure]
  have hreq1 : dictGet s1 (a.annotations.foldl
      (stepReq (List.zip (a.annotations.map Prod.fst).reverse a.defaults.reverse) pd) [])
      = none := dictGet_foldl_stepReq_none _ _ _ _ _ hk1 rfl
  have hreq2 : dictGet s2 (a.annotations.foldl
      (stepReq (List.zip (a.annotations.map Prod.fst).reverse a.defaults.reverse) pd) [])
      = none := dictGet_foldl_stepReq_none _ _ _ _ _ hk2 rfl
  refine ⟨⟨a.annotations.foldl
      (stepReq (List.zip (a.annotations.map Prod.fst).reverse a.defaults.reverse) pd) [],
    a.annotations.foldl
      (stepResp (List.zip (a.annotations.map Prod.fst).reverse a.defaults.reverse) pd) [],
    pyCamelize fname ++ "Request", pyCamelize fname ++ "Response",
    some s2, pd.header, pd.returns⟩, ?_, rfl, hreq1, hreq2⟩
  simp [parse_schemas, hsimple, hbuild, bind, Except.bind, pure, Except.pure]

/-- The argspec of `def two_shells(s1: Shell, s2: Shell, x: int)`. -/
def c7ArgSpec : FullArgSpec :=
  ⟨["s1", "s2", "x"], [], [("s1", .shell), ("s2", .shell), ("x", .plain "int")]⟩

/-- C7 counterexample: a callable with two `Shell`-annotated arguments
compiles WITHOUT any error — no `InvalidContextArgument` (no such error
exists in the code) and no other exception is raised at registration
time; the request model keeps only `x` and the last shell argument `s2`
wins. -/
theorem multiple_shell_arguments_counterexample :
    build_executable_from_args "two_shells" (some "Doc.") c7ArgSpec
      = .ok ⟨[("x", ⟨.plain "int", .ellipsis, "X"⟩)], [],
             "TwoShellsRequest", "TwoShellsResponse", some "s2", "Doc.", none⟩ := by rfl

/-- C7 witness for the amended theorem, at the concrete two-shell
callable. -/
theorem multiple_shell_arguments_no_error_witness :
    ∃ br,
      parse_schemas "two_shells" (some "Doc.") c7ArgSpec false
        = .ok (.wrapped br, .synthesized br.requestName br.requestFields,
               .synthesized br.responseName br.responseFields, true)
      ∧ br.shell_argument = some "s2"
      ∧ dictGet "s1" br.requestFields = none
      ∧ dictGet "s2" br.requestFields = none :=
  multiple_shell_arguments_no_error "two_shells" "Doc." c7ArgSpec
    ⟨"Doc.", [], none⟩ "s1" "s2" false [] [] [("x", .plain "int")]
    rfl rfl rfl (by decide) (by decide) (by decide) (by decide) (by rfl)

/-- C3: evaluation of the signature path at
`def calculate(a: int, b: int = 5) -> int` with docstring `"Do thing."`.
With the return annotation present, the mis-zipped defaults dict pairs
`"return"` with `5`, so the request field `b` comes out REQUIRED
(`ellipsis`) — contradicting the claim — and the default `5` is attached
to the synthesized response field instead.  The second conjunct shows the
same callable WITHOUT the return annotation gets the claimed behaviour
(`b` optional with default `5`), isolating the defect to the
`zip(reversed(annotations), reversed(defaults))` slip. -/
theorem defaults_shift_on_return_annotated :
    build_executable_from_args "calculate" (some "Do thing.")
        ⟨["a", "b"], [.pyInt 5],
         [("a", .plain "int"), ("b", .plain "int"), ("return", .plain "int")]⟩
      = .ok ⟨[("a", ⟨.plain "int", .ellipsis, "A"⟩), ("b", ⟨.plain "int", .ellipsis, "B"⟩)],
             [("return", ⟨.plain "int", .val (.pyInt 5), "Return"⟩)],
             "CalculateRequest", "CalculateResponse", none, "Do thing.", none⟩
    ∧ build_executable_from_args "calculate" (some "Do thing.")
        ⟨["a", "b"], [.pyInt 5], [("a", .plain "int"), ("b", .plain "int")]⟩
      = .ok ⟨[("a", ⟨.plain "int", .ellipsis, "A"⟩),
              ("b", ⟨.plain "int", .val (.pyInt 5), "B"⟩)],
             [], "CalculateRequest", "CalculateResponse", none, "Do thing.", none⟩ :=
  ⟨rfl, rfl⟩


/-! ## `GetRepoMap.execute`
(`python/composio/tools/local/codemap/actions/get_repomap.py`)

The action resolves the requested directory, returns an error dict when
it does not exist, and otherwise runs the whole map-generation body
inside `try/except Exception`.  Path resolution, the gitignore-filtered
file listing and `RepoMap.get_repo_map` are external collaborators
(outside `src/`), abstracted as an environment: `resolve` models
`Path(...).resolve()`, `rootExists` models `repo_root.exists()`, and
`generate` models the try-block body, yielding either the generated map
(possibly Python `None`) or the text of the exception it raised. -/

structure GetRepoMapRequest where
  code_directory : String
  files_of_interest : List String
  primary_file_paths : List String
  mentioned_idents : List String

/-- The filesystem/generator environment of `GetRepoMap.execute`. -/
structure RepoEnv where
  resolve : String → String
  rootExists : String → Bool
  generate : GetRepoMapRequest → Except String (Option String)

/-- `GetRepoMap.execute`: returns one of the three literal result dicts
of the source; it is a total function — by construction no exception
escapes it (the `except Exception` clause converts any generation
failure into the error dict). -/
def GetRepoMap.execute (env : RepoEnv) (request_data : GetRepoMapRequest) :
    List (String × Option String) :=
  let repo_root := env.resolve request_data.code_directory
  if !env.rootExists repo_root then
    [("error_message",
      some ("Repository root path '" ++ repo_root ++ "' does not exist or is inaccessible."))]
  else
    match env.generate request_data with
    | .ok generated_map =>
      [("status", some "success"), ("repository_map", generated_map), ("error_message", none)]
    | .error e =>
      [("repository_map", none),
       ("error_message",
        some ("An error occurred while generating the repository map: " ++ e
          ++ ". Please ensure all paths are correct and you have necessary permissions."))]

/-- C9: `GetRepoMap.execute` is a total function of its environment (no
exception propagates): when the resolved directory does not exist it
returns the dict whose `error_message` names the missing path; when map
generation raises, it returns `repository_map = None` with an
`error_message` embedding the exception text; and on success it returns
status `"success"` with `error_message = None`. -/
theorem getrepomap_never_raises (env : RepoEnv) (rq : GetRepoMapRequest) :
    (env.rootExists (env.resolve rq.code_directory) = false →
      GetRepoMap.execute env rq
        = [("error_message",
            some ("Repository root path '" ++ env.resolve rq.code_directory
              ++ "' does not exist or is inaccessible."))])
    ∧ (∀ e, env.rootExists (env.resolve rq.code_directory) = true →
        env.generate rq = .error e →
        GetRepoMap.execute env rq
          = [("repository_map", none),
             ("error_message",
              some ("An error occurred while generating the repository map: " ++ e
                ++ ". Please ensure all paths are correct and you have necessary permissions."))])
    ∧ (∀ m, env.rootExists (env.resolve rq.code_directory) = true →
        env.generate rq = .ok m →
        GetRepoMap.execute env rq
          = [("status", some "success"), ("repository_map", m), ("error_message", none)]) := by
  refine ⟨fun h => ?_, fun e h hg => ?_, fun m h hg => ?_⟩
  · simp [GetRepoMap.execute, h]
  · simp [GetRepoMap.execute, h, hg]
  · simp [GetRepoMap.execute, h, hg]

/-- A concrete repo-map request for the C9 witness. -/
def c9Request : GetRepoMapRequest := ⟨"/project", [], [], []⟩

/-- C9 witness: all three branches of the theorem discharged on concrete
environments (missing root, raising generator, succeeding generator). -/
theorem getrepomap_never_raises_witness :
    (GetRepoMap.execute ⟨id, fun _ => false, fun _ => .ok none⟩ c9Request
      = [("error_message",
          some "Repository root path '/project' does not exist or is inaccessible.")])
    ∧ (GetRepoMap.execute ⟨id, fun _ => true, fun _ => .error "boom"⟩ c9Request
      = [("repository_map", none),
         ("error_message",
          some ("An error occurred while generating the repository map: boom. "
            ++ "Please ensure all paths are correct and you have necessary permissions."))])
    ∧ (GetRepoMap.execute ⟨id, fun _ => true, fun _ => .ok (some "the map")⟩ c9Request
      = [("status", some "success"), ("repository_map", some "the map"),
         ("error_message", none)]) :=
  ⟨(getrepomap_never_raises ⟨id, fun _ => false, fun _ => .ok none⟩ c9Request).1 rfl,
   (getrepomap_never_raises ⟨id, fun _ => true, fun _ => .error "boom"⟩ c9Request).2.1
     "boom" rfl rfl,
   (getrepomap_never_raises ⟨id, fun _ => true, fun _ => .ok (some "the map")⟩ c9Request).2.2
     (some "the map") rfl rfl⟩

/-! ## `CreateFileCmd.execute`
(`python/composio/local_tools/local_workspace/cmd_manager/actions/cmds.py`)

`execute` first runs `self._setup(request_data)` (from `base_class.py`:
it stores the workspace id and raises `ValueError` when no workspace is
attached — it issues no command), then validates the file name, and only
afterwards calls `self.workspace.communicate(f"create {file_name}")`.
`process_output` lives in `commons/utils.py`, outside `src/`, and is
abstracted as a parameter; the second `if self.workspace is None` check
of the source is unreachable after `_setup` and is subsumed by the
initial match.  The embedding returns, alongside the response, the list
of commands issued to the workspace, so "the workspace state is
unchanged" is expressible as that list being empty. -/

structure BaseCmdResponse where
  output : String
  return_code : Int

/-- The attached workspace: `communicate` runs one command. -/
structure WorkspaceHandle where
  communicate : String → BaseCmdResponse

/-- `CreateFileRequest`; `file_name` is an `Option` so the `None` case of
`validate_file_name` is representable. -/
structure CreateFileRequest where
  workspace_id : String
  file_name : Option String

structure BaseResponse where
  output : String
  return_code : Int
deriving Repr, DecidableEq

/-- `CreateFileCmd.validate_file_name`:
`file_name is None or file_name.strip() == ""` rejects. -/
def validate_file_name : Option String → Bool
  | none => false
  | some s => !(pyStrip s = "")

/-- Python `str(x)` on an optional string: `str(None) = "None"`. -/
def pyStrOfOpt : Option String → String
  | none => "None"
  | some s => s

/-- `CreateFileCmd.execute`, returning the response together with the
trace of commands issued to the workspace. -/
def CreateFileCmd.execute (workspace : Option WorkspaceHandle)
    (process_output : String → Int → String × Int)
    (request_data : CreateFileRequest) :
    Except PyError (BaseResponse × List String) :=
  match workspace with
  | none => .error (.valueError "workspace_factory is not set")
  | some ws =>
    if !validate_file_name request_data.file_name then
      .ok (⟨"Exception: file-name can not be empty", 1⟩, [])
    else
      let cmd := "create " ++ pyStrOfOpt request_data.file_name
      let r := ws.communicate cmd
      let (output, rc) := process_output r.output r.return_code
      .ok (⟨output, rc⟩, [cmd])

/-- C10: with a workspace attached, every request whose `file_name` is
`None`, empty, or whitespace-only makes `CreateFileCmd.execute` return
`output = "Exception: file-name can not be empty"` with
`return_code = 1`, and the trace of issued commands is empty — the check
happens before anything reaches the workspace, so its state is
unchanged. -/
theorem createfile_blank_name_rejected (ws : WorkspaceHandle)
    (process_output : String → Int → String × Int) (rq : CreateFileRequest)
    (hblank : rq.file_name = none ∨ ∃ s, rq.file_name = some s ∧ pyStrip s = "") :
    CreateFileCmd.execute (some ws) process_output rq
      = .ok (⟨"Exception: file-name can not be empty", 1⟩, []) := by
  rcases hblank with h | ⟨s, h, hs⟩
  · simp [CreateFileCmd.execute, validate_file_name, h]
  · simp [CreateFileCmd.execute, validate_file_name, h, hs]

/-- C10 witness: a whitespace-only file name against a concrete
workspace. -/
theorem createfile_blank_name_rejected_witness :
    CreateFileCmd.execute (some ⟨fun c => ⟨"ran " ++ c, 0⟩⟩) (fun o rc => (o, rc))
        ⟨"ws-1", some "   "⟩
      = .ok (⟨"Exception: file-name can not be empty", 1⟩, []) :=
  createfile_blank_name_rejected ⟨fun c => ⟨"ran " ++ c, 0⟩⟩ (fun o rc => (o, rc))
    ⟨"ws-1", some "   "⟩ (Or.inr ⟨"   ", rfl, by decide⟩)

end Codecomposio
